/-
Verification of the simple-recipe-api backend (FastAPI + psycopg2) against its
natural-language specification.

Shallow embedding:
  * `src/api/models.py`  — payload shapes and pydantic field validation
  * `src/api/db.py`      — the database adapter (`fetch_all`, `fetch_one`,
    `execute_returning_one`) with its two failure modes, both of which are a
    Python `RuntimeError`: the missing `DATABASE_URL` configuration error
    raised by `_get_database_url`, and the "query did not return a row" error
    raised by `execute_returning_one`.
  * `src/api/routes_recipes.py` — the five route handlers over an explicit
    database state (`DB`), returning an `Except ApiError` outcome paired with
    the post-state.

The database is a list of rows plus the next SERIAL id.  SQL statements used
by the handlers are embedded as pure functions on `DB` (`listQuery`,
`getQuery`, `insertStmt`, `updateStmt`, `deleteStmt`), and the adapter
functions are generic over them, as `db.py` is generic over query strings.
-/
import Mathlib

namespace RecipeApi

/-- A row of the `recipes` table: `id, title, description, ingredients,
instructions`, as returned by every query in `routes_recipes.py`. -/
structure Row where
  id : Int
  title : String
  description : String
  ingredients : String
  instructions : String
deriving DecidableEq, Repr

/-- The state of the `recipes` table: its rows (in insertion order) and the
next value of the SERIAL `id` sequence. -/
structure DB where
  rows : List Row
  nextId : Int
deriving DecidableEq, Repr

/-- The `RecipeOut` model of `models.py`: `RecipeBase` fields plus `id`. -/
structure RecipeOut where
  id : Int
  title : String
  description : String
  ingredients : String
  instructions : String
deriving DecidableEq, Repr

/-- A validated `RecipeCreate` / `RecipeUpdate` payload (both share
`RecipeBase` in `models.py`). -/
structure RecipePayload where
  title : String
  description : String
  ingredients : String
  instructions : String
deriving DecidableEq, Repr

/-- A raw request body before pydantic validation: each `RecipeBase` field may
be missing. -/
structure RawPayload where
  title : Option String
  description : Option String
  ingredients : Option String
  instructions : Option String
deriving DecidableEq, Repr

/-- `title: Field(min_length=1, max_length=200)` in `models.py`. -/
def validTitle (s : String) : Bool :=
  1 ≤ s.length && s.length ≤ 200

/-- `description: Field(min_length=1, max_length=2000)` in `models.py`. -/
def validDescription (s : String) : Bool :=
  1 ≤ s.length && s.length ≤ 2000

/-- `ingredients` / `instructions`: `Field(min_length=1)` in `models.py`. -/
def validText (s : String) : Bool :=
  1 ≤ s.length

/-- Pydantic validation of a request body against `RecipeBase`: every field
must be present and satisfy its length constraints, otherwise FastAPI rejects
the request before the handler runs. -/
def parsePayload (raw : RawPayload) : Option RecipePayload :=
  match raw.title, raw.description, raw.ingredients, raw.instructions with
  | some t, some d, some ing, some ins =>
      if validTitle t && validDescription d && validText ing && validText ins then
        some ⟨t, d, ing, ins⟩
      else
        none
  | _, _, _, _ => none

/-- The two ways the adapter in `db.py` raises `RuntimeError`: a missing
`DATABASE_URL` (from `_get_database_url`) and an empty result from
`execute_returning_one`.  Both are the same Python exception class
`RuntimeError`, so `except RuntimeError` catches either. -/
inductive DbError where
  | configMissing
  | emptyResult
deriving DecidableEq, Repr

/-- Outcomes of a request as seen by the client: a 422 request-validation
rejection (pydantic / path-parameter coercion), a 404 `HTTPException`, or a
500 internal server error from an exception the handler did not catch. -/
inductive ApiError where
  | validation
  | notFound
  | server (e : DbError)
deriving DecidableEq, Repr

/-- `db.fetch_all`: opens a connection (raising if `DATABASE_URL` is absent),
executes a SELECT and returns all rows. -/
def fetch_all (cfg : Option String) (q : DB → List Row) (db : DB) :
    Except DbError (List Row) :=
  match cfg with
  | none => Except.error DbError.configMissing
  | some _ => Except.ok (q db)

/-- `db.fetch_one`: opens a connection (raising if `DATABASE_URL` is absent),
executes a SELECT and returns the first row or `none`. -/
def fetch_one (cfg : Option String) (q : DB → Option Row) (db : DB) :
    Except DbError (Option Row) :=
  match cfg with
  | none => Except.error DbError.configMissing
  | some _ => Except.ok (q db)

/-- `db.execute_returning_one`: opens a connection (raising if `DATABASE_URL`
is absent), executes an INSERT/UPDATE/DELETE `... RETURNING` statement, and

  * if the statement returned no row, raises `RuntimeError` before the
    commit, so closing the connection rolls the statement back and the
    database is unchanged;
  * otherwise commits and returns the first returned row.

The statement is modelled as a function from the pre-state to the post-state
paired with the rows its RETURNING clause produces. -/
def execute_returning_one (cfg : Option String) (stmt : DB → DB × List Row)
    (db : DB) : Except DbError (DB × Row) :=
  match cfg with
  | none => Except.error DbError.configMissing
  | some _ =>
      match (stmt db).2 with
      | [] => Except.error DbError.emptyResult
      | r :: _ => Except.ok ((stmt db).1, r)

/-- Row ordering used by the list query: `ORDER BY id DESC`. -/
def rowGE (a b : Row) : Prop := b.id ≤ a.id

instance : DecidableRel rowGE := fun a b =>
  inferInstanceAs (Decidable (b.id ≤ a.id))

instance : IsTotal Row rowGE :=
  ⟨fun a b => (Int.le_total b.id a.id).elim Or.inl Or.inr⟩

instance : IsTrans Row rowGE :=
  ⟨fun _ _ _ hab hbc => le_trans hbc hab⟩

/-- `SELECT id, title, description, ingredients, instructions FROM recipes
ORDER BY id DESC`. -/
def listQuery (db : DB) : List Row :=
  List.insertionSort rowGE db.rows

/-- `SELECT ... FROM recipes WHERE id = %s`. -/
def getQuery (rid : Int) (db : DB) : Option Row :=
  db.rows.find? (fun r => r.id == rid)

/-- `INSERT INTO recipes (title, description, ingredients, instructions)
VALUES (...) RETURNING ...`: the new row gets the next SERIAL id. -/
def insertStmt (p : RecipePayload) (db : DB) : DB × List Row :=
  let r : Row := ⟨db.nextId, p.title, p.description, p.ingredients, p.instructions⟩
  (⟨db.rows ++ [r], db.nextId + 1⟩, [r])

/-- The effect of `UPDATE ... SET` on one row: the id is kept, the four text
fields are overwritten. -/
def setFields (p : RecipePayload) (r : Row) : Row :=
  ⟨r.id, p.title, p.description, p.ingredients, p.instructions⟩

/-- `UPDATE recipes SET title = %s, ... WHERE id = %s RETURNING ...`:
rewrites every row whose id matches and returns the rewritten rows. -/
def updateStmt (rid : Int) (p : RecipePayload) (db : DB) : DB × List Row :=
  (⟨db.rows.map (fun r => if r.id == rid then setFields p r else r), db.nextId⟩,
   (db.rows.filter (fun r => r.id == rid)).map (setFields p))

/-- `DELETE FROM recipes WHERE id = %s RETURNING ...`: removes every row
whose id matches and returns the removed rows. -/
def deleteStmt (rid : Int) (db : DB) : DB × List Row :=
  (⟨db.rows.filter (fun r => !(r.id == rid)), db.nextId⟩,
   db.rows.filter (fun r => r.id == rid))

/-- `_row_to_recipe_out` in `routes_recipes.py`. -/
def row_to_recipe_out (r : Row) : RecipeOut :=
  ⟨r.id, r.title, r.description, r.ingredients, r.instructions⟩

/-- `GET /recipes` (`list_recipes`): fetches all rows ordered by id
descending and converts them.  An adapter exception is not caught, so it
surfaces as a 500. -/
def list_recipes (cfg : Option String) (db : DB) :
    Except ApiError (List RecipeOut) × DB :=
  match fetch_all cfg listQuery db with
  | Except.error e => (Except.error (ApiError.server e), db)
  | Except.ok rows => (Except.ok (rows.map row_to_recipe_out), db)

/-- `GET /recipes/{recipe_id}` (`get_recipe`).  The path parameter is the
result of FastAPI coercing the path segment to `int`; `none` means the
segment was not an integer and the request is rejected with a validation
error before the handler runs.  A `none` query result becomes a 404; an
adapter exception is not caught and surfaces as a 500. -/
def get_recipe (cfg : Option String) (db : DB) (ridRaw : Option Int) :
    Except ApiError RecipeOut × DB :=
  match ridRaw with
  | none => (Except.error ApiError.validation, db)
  | some rid =>
      match fetch_one cfg (getQuery rid) db with
      | Except.error e => (Except.error (ApiError.server e), db)
      | Except.ok none => (Except.error ApiError.notFound, db)
      | Except.ok (some row) => (Except.ok (row_to_recipe_out row), db)

/-- `POST /recipes` (`create_recipe`): validates the body, inserts, and
returns the created record.  An adapter exception is not caught. -/
def create_recipe (cfg : Option String) (db : DB) (raw : RawPayload) :
    Except ApiError RecipeOut × DB :=
  match parsePayload raw with
  | none => (Except.error ApiError.validation, db)
  | some p =>
      match execute_returning_one cfg (insertStmt p) db with
      | Except.error e => (Except.error (ApiError.server e), db)
      | Except.ok (db2, row) => (Except.ok (row_to_recipe_out row), db2)

/-- `PUT /recipes/{recipe_id}` (`update_recipe`): validates the path
parameter and the body, then runs the UPDATE through
`execute_returning_one`.  The handler does NOT catch the `RuntimeError` the
adapter raises when the id does not exist — its `if not row:` check is
unreachable because the adapter raises instead of returning a falsy row — so
that error propagates as a 500. -/
def update_recipe (cfg : Option String) (db : DB) (ridRaw : Option Int)
    (raw : RawPayload) : Except ApiError RecipeOut × DB :=
  match ridRaw with
  | none => (Except.error ApiError.validation, db)
  | some rid =>
      match parsePayload raw with
      | none => (Except.error ApiError.validation, db)
      | some p =>
          match execute_returning_one cfg (updateStmt rid p) db with
          | Except.error e => (Except.error (ApiError.server e), db)
          | Except.ok (db2, row) => (Except.ok (row_to_recipe_out row), db2)

/-- `DELETE /recipes/{recipe_id}` (`delete_recipe`): validates the path
parameter, then runs the DELETE through `execute_returning_one` inside
`try: ... except RuntimeError:` which converts ANY `RuntimeError` — the
empty-result error and also the missing-`DATABASE_URL` configuration
error — into a 404. -/
def delete_recipe (cfg : Option String) (db : DB) (ridRaw : Option Int) :
    Except ApiError RecipeOut × DB :=
  match ridRaw with
  | none => (Except.error ApiError.validation, db)
  | some rid =>
      match execute_returning_one cfg (deleteStmt rid) db with
      | Except.error _ => (Except.error ApiError.notFound, db)
      | Except.ok (db2, row) => (Except.ok (row_to_recipe_out row), db2)

/-- Well-formed database state: row ids are distinct (`id` is the primary
key) and strictly below the next SERIAL value. -/
def WF (db : DB) : Prop :=
  (db.rows.map Row.id).Nodup ∧ ∀ r ∈ db.rows, r.id < db.nextId

instance (db : DB) : Decidable (WF db) :=
  inferInstanceAs (Decidable (_ ∧ _))

instance : Inhabited Row := ⟨⟨0, "", "", "", ""⟩⟩

instance {ε α : Type} [DecidableEq ε] [DecidableEq α] :
    DecidableEq (Except ε α) := fun a b =>
  match a, b with
  | Except.error e, Except.error f => decidable_of_iff (e = f) (by simp)
  | Except.error _, Except.ok _ => isFalse (by simp)
  | Except.ok _, Except.error _ => isFalse (by simp)
  | Except.ok x, Except.ok y => decidable_of_iff (x = y) (by simp)

/-- A raw field violates its constraint when it is missing or fails its
length check. -/
def fieldViolation (o : Option String) (ok : String → Bool) : Bool :=
  match o with
  | none => true
  | some t => !(ok t)

/-- The payload violations listed by the spec: title missing or not length
1–200, description missing or not length 1–2000, ingredients or
instructions missing or empty. -/
def violatesConstraints (raw : RawPayload) : Bool :=
  fieldViolation raw.title validTitle ||
  fieldViolation raw.description validDescription ||
  fieldViolation raw.ingredients validText ||
  fieldViolation raw.instructions validText

/-- A sample valid request body, for concrete instantiations. -/
def sampleRaw : RawPayload :=
  ⟨some "Pasta", some "Tasty pasta", some "Noodles and salt", some "Boil and mix"⟩

/-- The validated form of `sampleRaw`. -/
def samplePayload : RecipePayload :=
  ⟨"Pasta", "Tasty pasta", "Noodles and salt", "Boil and mix"⟩

/-- A request body with an empty `title`, violating `min_length=1`. -/
def badRaw : RawPayload :=
  ⟨some "", some "Tasty pasta", some "Noodles and salt", some "Boil and mix"⟩

/-- A sample persisted row with id 1. -/
def sampleRow : Row := ⟨1, "Cake", "Sweet cake", "Flour and eggs", "Bake it"⟩

/-- A sample persisted row with id 2. -/
def sampleRow2 : Row := ⟨2, "Tea", "Hot tea", "Tea leaves", "Steep in water"⟩

/-- A sample well-formed database holding `sampleRow` and `sampleRow2`. -/
def sampleDB : DB := ⟨[sampleRow, sampleRow2], 3⟩

end RecipeApi

namespace RecipeApi

/-- C3: with a connection available, `execute_returning_one` fails with the
"unexpected empty result" error exactly when the statement returns zero
rows; when the statement returns at least one row it commits (the returned
state is the statement's post-state) and yields the first returned row. -/
theorem execute_returning_one_spec (u : String) (stmt : DB → DB × List Row)
    (db : DB) :
    (execute_returning_one (some u) stmt db = Except.error DbError.emptyResult
      ↔ (stmt db).2 = []) ∧
    ((stmt db).2 ≠ [] →
      execute_returning_one (some u) stmt db
        = Except.ok ((stmt db).1, (stmt db).2.headI)) := by
  cases h : (stmt db).2 with
  | nil => simp [execute_returning_one, h]
  | cons r rest => simp [execute_returning_one, h]

theorem execute_returning_one_spec_witness :
    (insertStmt samplePayload sampleDB).2 ≠ [] ∧
    ((execute_returning_one (some "dsn") (insertStmt samplePayload) sampleDB
        = Except.error DbError.emptyResult
      ↔ (insertStmt samplePayload sampleDB).2 = []) ∧
    ((insertStmt samplePayload sampleDB).2 ≠ [] →
      execute_returning_one (some "dsn") (insertStmt samplePayload) sampleDB
        = Except.ok ((insertStmt samplePayload sampleDB).1,
            (insertStmt samplePayload sampleDB).2.headI))) :=
  ⟨by decide, execute_returning_one_spec "dsn" (insertStmt samplePayload) sampleDB⟩

/-- C1 (code bug): on an id matching no row, `update_recipe` does NOT yield
the 404 not-found outcome: the adapter's empty-result `RuntimeError`
propagates uncaught out of the handler (the handler's `if not row:`
conversion is unreachable), so the request ends in a 500 server error. -/
theorem update_nonexistent_is_server_error (u : String) (db : DB) (rid : Int)
    (raw : RawPayload) (p : RecipePayload)
    (hp : parsePayload raw = some p)
    (habs : ∀ r ∈ db.rows, r.id ≠ rid) :
    update_recipe (some u) db (some rid) raw
        = (Except.error (ApiError.server DbError.emptyResult), db) ∧
    Except.error (α := RecipeOut) (ApiError.server DbError.emptyResult)
        ≠ Except.error ApiError.notFound := by
  have hfil : db.rows.filter (fun r => r.id == rid) = [] := by
    rw [List.filter_eq_nil_iff]
    intro r hr
    simpa using habs r hr
  refine ⟨?_, by simp⟩
  simp [update_recipe, hp, execute_returning_one, updateStmt, hfil]

theorem update_nonexistent_is_server_error_witness :
    parsePayload sampleRaw = some samplePayload ∧
    (∀ r ∈ (DB.mk [] 1).rows, r.id ≠ (5 : Int)) ∧
    (update_recipe (some "dsn") (DB.mk [] 1) (some 5) sampleRaw
        = (Except.error (ApiError.server DbError.emptyResult), DB.mk [] 1) ∧
    Except.error (α := RecipeOut) (ApiError.server DbError.emptyResult)
        ≠ Except.error ApiError.notFound) :=
  ⟨by decide, by decide,
    update_nonexistent_is_server_error "dsn" (DB.mk [] 1) 5 sampleRaw
      samplePayload (by decide) (by decide)⟩

/-- C2: on an id matching no row, `get_recipe` maps the adapter's absent
result to a 404 not-found outcome, and `delete_recipe` catches the adapter's
empty-result error and converts it to a 404 not-found outcome; neither
changes the database. -/
theorem get_delete_nonexistent_notFound (u : String) (db : DB) (rid : Int)
    (habs : ∀ r ∈ db.rows, r.id ≠ rid) :
    get_recipe (some u) db (some rid) = (Except.error ApiError.notFound, db) ∧
    delete_recipe (some u) db (some rid)
        = (Except.error ApiError.notFound, db) := by
  have hfil : db.rows.filter (fun r => r.id == rid) = [] := by
    rw [List.filter_eq_nil_iff]
    intro r hr
    simpa using habs r hr
  have hfind : db.rows.find? (fun r => r.id == rid) = none := by
    rw [List.find?_eq_none]
    intro r hr
    simpa using habs r hr
  constructor
  · simp [get_recipe, fetch_one, getQuery, hfind]
  · simp [delete_recipe, execute_returning_one, deleteStmt, hfil]

theorem get_delete_nonexistent_notFound_witness :
    (∀ r ∈ sampleDB.rows, r.id ≠ (7 : Int)) ∧
    (get_recipe (some "dsn") sampleDB (some 7)
        = (Except.error ApiError.notFound, sampleDB) ∧
    delete_recipe (some "dsn") sampleDB (some 7)
        = (Except.error ApiError.notFound, sampleDB)) :=
  ⟨by decide, get_delete_nonexistent_notFound "dsn" sampleDB 7 (by decide)⟩

/-- C9 (code bug): when `DATABASE_URL` is absent, List, Get, Create and
Update all fail with the configuration error surfacing as a 500 — but
Delete's `except RuntimeError` catches the configuration error too and
completes with a normal 404 not-found outcome, so the process does serve a
not-found response despite the missing configuration. -/
theorem missing_config_outcomes (db : DB) (rid : Int) (raw : RawPayload)
    (p : RecipePayload) (hp : parsePayload raw = some p) :
    delete_recipe none db (some rid) = (Except.error ApiError.notFound, db) ∧
    list_recipes none db
        = (Except.error (ApiError.server DbError.configMissing), db) ∧
    get_recipe none db (some rid)
        = (Except.error (ApiError.server DbError.configMissing), db) ∧
    create_recipe none db raw
        = (Except.error (ApiError.server DbError.configMissing), db) ∧
    update_recipe none db (some rid) raw
        = (Except.error (ApiError.server DbError.configMissing), db) := by
  refine ⟨?_, ?_, ?_, ?_, ?_⟩ <;>
    simp [delete_recipe, list_recipes, get_recipe, create_recipe,
      update_recipe, hp, execute_returning_one, fetch_all, fetch_one]

theorem missing_config_outcomes_witness :
    parsePayload sampleRaw = some samplePayload ∧
    (delete_recipe none sampleDB (some 1)
        = (Except.error ApiError.notFound, sampleDB) ∧
    list_recipes none sampleDB
        = (Except.error (ApiError.server DbError.configMissing), sampleDB) ∧
    get_recipe none sampleDB (some 1)
        = (Except.error (ApiError.server DbError.configMissing), sampleDB) ∧
    create_recipe none sampleDB sampleRaw
        = (Except.error (ApiError.server DbError.configMissing), sampleDB) ∧
    update_recipe none sampleDB (some 1) sampleRaw
        = (Except.error (ApiError.server DbError.configMissing), sampleDB)) :=
  ⟨by decide, missing_config_outcomes sampleDB 1 sampleRaw samplePayload (by decide)⟩

/-- The list query result is a permutation of the stored rows. -/
lemma listQuery_perm (db : DB) : (listQuery db).Perm db.rows :=
  List.perm_insertionSort rowGE db.rows

/-- On a well-formed database the list query is strictly descending in id. -/
lemma listQuery_strict_desc (db : DB) (h : WF db) :
    (listQuery db).Pairwise (fun a b => b.id < a.id) := by
  have hsorted : List.Sorted rowGE (listQuery db) :=
    List.sorted_insertionSort rowGE db.rows
  have hnodup : ((listQuery db).map Row.id).Nodup :=
    ((listQuery_perm db).map Row.id).nodup_iff.mpr h.1
  have hne : (listQuery db).Pairwise (fun a b => a.id ≠ b.id) :=
    List.pairwise_map.mp hnodup
  exact (List.Pairwise.and hsorted hne).imp
    (fun hab => lt_of_le_of_ne hab.1 (Ne.symm hab.2))

/-- C4: `list_recipes` succeeds, leaves the database unchanged, and returns
in one response a permutation of all persisted recipes (no pagination),
ordered strictly descending by id. -/
theorem list_recipes_desc_complete (u : String) (db : DB) (h : WF db) :
    list_recipes (some u) db
        = (Except.ok ((listQuery db).map row_to_recipe_out), db) ∧
    ((listQuery db).map row_to_recipe_out).Perm
        (db.rows.map row_to_recipe_out) ∧
    (((listQuery db).map row_to_recipe_out).map RecipeOut.id).Pairwise
        (fun a b => b < a) := by
  refine ⟨by simp [list_recipes, fetch_all], ?_, ?_⟩
  · exact (listQuery_perm db).map row_to_recipe_out
  · rw [List.map_map, List.pairwise_map]
    exact listQuery_strict_desc db h

theorem list_recipes_desc_complete_witness :
    WF sampleDB ∧
    (list_recipes (some "dsn") sampleDB
        = (Except.ok ((listQuery sampleDB).map row_to_recipe_out), sampleDB) ∧
    ((listQuery sampleDB).map row_to_recipe_out).Perm
        (sampleDB.rows.map row_to_recipe_out) ∧
    (((listQuery sampleDB).map row_to_recipe_out).map RecipeOut.id).Pairwise
        (fun a b => b < a)) :=
  ⟨by decide, list_recipes_desc_complete "dsn" sampleDB (by decide)⟩

/-- `get_recipe` on an id whose lookup succeeds returns that row. -/
lemma get_recipe_ok (u : String) (db : DB) (rid : Int) (r : Row)
    (h : getQuery rid db = some r) :
    get_recipe (some u) db (some rid) = (Except.ok (row_to_recipe_out r), db) := by
  simp [get_recipe, fetch_one, h]

/-- `get_recipe` on an id whose lookup fails reports not-found. -/
lemma get_recipe_none (u : String) (db : DB) (rid : Int)
    (h : getQuery rid db = none) :
    get_recipe (some u) db (some rid) = (Except.error ApiError.notFound, db) := by
  simp [get_recipe, fetch_one, h]

/-- On a well-formed database no stored row has the next SERIAL id. -/
lemma find?_nextId_none (db : DB) (hWF : WF db) :
    db.rows.find? (fun r => r.id == db.nextId) = none := by
  rw [List.find?_eq_none]
  intro r hr
  simpa using ne_of_lt (hWF.2 r hr)

/-- C5: round-trip.  For a valid create payload, Create returns the record
with the freshly assigned id and the four text fields of the payload, and
Get on that id against the post-state returns the same record. -/
theorem create_get_roundtrip (u : String) (db : DB) (raw : RawPayload)
    (p : RecipePayload) (hWF : WF db) (hp : parsePayload raw = some p) :
    (create_recipe (some u) db raw).1
        = Except.ok ⟨db.nextId, p.title, p.description, p.ingredients,
            p.instructions⟩ ∧
    (get_recipe (some u) (create_recipe (some u) db raw).2 (some db.nextId)).1
        = Except.ok ⟨db.nextId, p.title, p.description, p.ingredients,
            p.instructions⟩ := by
  constructor
  · simp [create_recipe, hp, execute_returning_one, insertStmt,
      row_to_recipe_out]
  · simp [create_recipe, hp, execute_returning_one, insertStmt, get_recipe,
      fetch_one, getQuery, List.find?_append, find?_nextId_none db hWF,
      row_to_recipe_out, List.find?]

theorem create_get_roundtrip_witness :
    WF sampleDB ∧ parsePayload sampleRaw = some samplePayload ∧
    ((create_recipe (some "dsn") sampleDB sampleRaw).1
        = Except.ok ⟨sampleDB.nextId, samplePayload.title,
            samplePayload.description, samplePayload.ingredients,
            samplePayload.instructions⟩ ∧
    (get_recipe (some "dsn") (create_recipe (some "dsn") sampleDB sampleRaw).2
        (some sampleDB.nextId)).1
        = Except.ok ⟨sampleDB.nextId, samplePayload.title,
            samplePayload.description, samplePayload.ingredients,
            samplePayload.instructions⟩) :=
  ⟨by decide, by decide,
    create_get_roundtrip "dsn" sampleDB sampleRaw samplePayload
      (by decide) (by decide)⟩

/-- Rewriting matching rows commutes with looking the id up: a find over the
updated rows returns the updated form of the row the find over the original
rows returns. -/
lemma find?_map_update (p : RecipePayload) (rid : Int) :
    ∀ l : List Row,
      (l.map (fun r => if r.id == rid then setFields p r else r)).find?
          (fun r => r.id == rid)
        = (l.find? (fun r => r.id == rid)).map (setFields p)
  | [] => rfl
  | r :: t => by
      by_cases hb : r.id = rid
      · have h1 : (if r.id == rid then setFields p r else r) = setFields p r := by
          simp [hb]
        have h2 : ((setFields p r).id == rid) = true := by simp [setFields, hb]
        have h3 : (r.id == rid) = true := by simp [hb]
        rw [List.map_cons, h1, List.find?_cons, List.find?_cons, h2, h3]
        rfl
      · have h1 : (if r.id == rid then setFields p r else r) = r := by
          simp [hb]
        have h3 : (r.id == rid) = false := by simp [hb]
        rw [List.map_cons, h1, List.find?_cons, List.find?_cons, h3]
        exact find?_map_update p rid t

/-- C6: update is a full replacement.  If some row has the target id and the
payload is valid, Update succeeds returning the row with all four text
fields overwritten by the payload, and Get on that id against the
post-state returns exactly the payload fields plus the id. -/
theorem update_full_replacement (u : String) (db : DB) (rid : Int)
    (raw : RawPayload) (p : RecipePayload) (r0 : Row)
    (hp : parsePayload raw = some p) (hmem : r0 ∈ db.rows)
    (hid : r0.id = rid) :
    (update_recipe (some u) db (some rid) raw).1
        = Except.ok ⟨rid, p.title, p.description, p.ingredients,
            p.instructions⟩ ∧
    (get_recipe (some u) (update_recipe (some u) db (some rid) raw).2
        (some rid)).1
        = Except.ok ⟨rid, p.title, p.description, p.ingredients,
            p.instructions⟩ := by
  have hmemf : r0 ∈ db.rows.filter (fun r => r.id == rid) :=
    List.mem_filter.mpr ⟨hmem, by simp [hid]⟩
  cases hf : db.rows.filter (fun r => r.id == rid) with
  | nil => rw [hf] at hmemf; exact absurd hmemf (List.not_mem_nil r0)
  | cons a rest =>
      have haid : a.id = rid := by
        have : a ∈ db.rows.filter (fun r => r.id == rid) := by
          rw [hf]; exact List.mem_cons_self a rest
        simpa using (List.mem_filter.mp this).2
      have hfind : db.rows.find? (fun r => r.id == rid) ≠ none := by
        intro hnone
        have := List.find?_eq_none.mp hnone r0 hmem
        simp [hid] at this
      have hrows : (update_recipe (some u) db (some rid) raw).2
          = ⟨db.rows.map (fun r => if r.id == rid then setFields p r else r),
              db.nextId⟩ := by
        simp [update_recipe, hp, execute_returning_one, updateStmt, hf]
      constructor
      · simp [update_recipe, hp, execute_returning_one, updateStmt, hf,
          setFields, row_to_recipe_out, haid]
      · cases hg : db.rows.find? (fun r => r.id == rid) with
        | none => exact absurd hg hfind
        | some b =>
            have hbid : b.id = rid := by simpa using List.find?_some hg
            have hgq : getQuery rid
                ⟨db.rows.map
                    (fun r => if r.id == rid then setFields p r else r),
                  db.nextId⟩
                = some (setFields p b) := by
              unfold getQuery
              rw [find?_map_update p rid db.rows, hg]
              rfl
            rw [hrows, get_recipe_ok u _ rid (setFields p b) hgq]
            simp [row_to_recipe_out, setFields, hbid]

theorem update_full_replacement_witness :
    parsePayload sampleRaw = some samplePayload ∧ sampleRow ∈ sampleDB.rows ∧
    sampleRow.id = (1 : Int) ∧
    ((update_recipe (some "dsn") sampleDB (some 1) sampleRaw).1
        = Except.ok ⟨1, samplePayload.title, samplePayload.description,
            samplePayload.ingredients, samplePayload.instructions⟩ ∧
    (get_recipe (some "dsn")
        (update_recipe (some "dsn") sampleDB (some 1) sampleRaw).2
        (some 1)).1
        = Except.ok ⟨1, samplePayload.title, samplePayload.description,
            samplePayload.ingredients, samplePayload.instructions⟩) :=
  ⟨by decide, by decide, by decide,
    update_full_replacement "dsn" sampleDB 1 sampleRaw samplePayload
      sampleRow (by decide) (by decide) (by decide)⟩

/-- C7: if Delete on an id succeeds (returning the deleted record), a
subsequent Get on that id against the post-state reports not-found. -/
theorem delete_then_get_notFound (u : String) (db db2 : DB) (rid : Int)
    (out : RecipeOut)
    (hdel : delete_recipe (some u) db (some rid) = (Except.ok out, db2)) :
    get_recipe (some u) db2 (some rid)
        = (Except.error ApiError.notFound, db2) := by
  cases hf : db.rows.filter (fun r => r.id == rid) with
  | nil =>
      simp [delete_recipe, execute_returning_one, deleteStmt, hf] at hdel
  | cons a rest =>
      simp [delete_recipe, execute_returning_one, deleteStmt, hf] at hdel
      obtain ⟨-, hdb2⟩ := hdel
      apply get_recipe_none
      unfold getQuery
      rw [List.find?_eq_none]
      intro r hr
      rw [← hdb2] at hr
      simpa using (List.mem_filter.mp hr).2

theorem delete_then_get_notFound_witness :
    delete_recipe (some "dsn") sampleDB (some 2)
        = (Except.ok (row_to_recipe_out sampleRow2), DB.mk [sampleRow] 3) ∧
    get_recipe (some "dsn") (DB.mk [sampleRow] 3) (some 2)
        = (Except.error ApiError.notFound, DB.mk [sampleRow] 3) :=
  ⟨by decide,
    delete_then_get_notFound "dsn" sampleDB (DB.mk [sampleRow] 3) 2
      (row_to_recipe_out sampleRow2) (by decide)⟩

/-- A payload violating the field constraints fails pydantic validation. -/
lemma parsePayload_eq_none_of_violates {raw : RawPayload}
    (h : violatesConstraints raw = true) : parsePayload raw = none := by
  obtain ⟨t, d, ing, ins⟩ := raw
  cases t <;> cases d <;> cases ing <;> cases ins <;>
    simp_all [parsePayload, violatesConstraints, fieldViolation]
  intro h1 h2 h3
  rcases h with ((h | h) | h) | h <;> simp_all

/-- C8: a Create or Update payload violating the field constraints, or a
non-integer path id on Get/Update/Delete, is rejected with the
invalid-input outcome — distinct from not-found — with the database
unchanged, for any adapter configuration (in particular with no working
connection at all, so no adapter call is involved and no row persisted). -/
theorem validation_rejected_before_adapter (cfg : Option String) (db : DB)
    (raw : RawPayload) (rid : Int) (h : violatesConstraints raw = true) :
    create_recipe cfg db raw = (Except.error ApiError.validation, db) ∧
    update_recipe cfg db (some rid) raw
        = (Except.error ApiError.validation, db) ∧
    get_recipe cfg db none = (Except.error ApiError.validation, db) ∧
    update_recipe cfg db none raw = (Except.error ApiError.validation, db) ∧
    delete_recipe cfg db none = (Except.error ApiError.validation, db) ∧
    ApiError.validation ≠ ApiError.notFound := by
  have hp := parsePayload_eq_none_of_violates h
  refine ⟨?_, ?_, ?_, ?_, ?_, by simp⟩ <;>
    simp [create_recipe, update_recipe, get_recipe, delete_recipe, hp]

theorem validation_rejected_before_adapter_witness :
    violatesConstraints badRaw = true ∧
    (create_recipe none sampleDB badRaw
        = (Except.error ApiError.validation, sampleDB) ∧
    update_recipe none sampleDB (some 1) badRaw
        = (Except.error ApiError.validation, sampleDB) ∧
    get_recipe none sampleDB none
        = (Except.error ApiError.validation, sampleDB) ∧
    update_recipe none sampleDB none badRaw
        = (Except.error ApiError.validation, sampleDB) ∧
    delete_recipe none sampleDB none
        = (Except.error ApiError.validation, sampleDB) ∧
    ApiError.validation ≠ ApiError.notFound) :=
  ⟨by decide, validation_rejected_before_adapter none sampleDB badRaw 1 (by decide)⟩

/-- Rewriting the rows matching an id leaves the non-matching rows
unchanged. -/
lemma filter_not_map_update (p : RecipePayload) (rid : Int) :
    ∀ l : List Row,
      (l.map (fun r => if r.id == rid then setFields p r else r)).filter
          (fun r => !(r.id == rid))
        = l.filter (fun r => !(r.id == rid))
  | [] => rfl
  | r :: t => by
      by_cases hb : r.id = rid
      · have h1 : (if r.id == rid then setFields p r else r) = setFields p r := by
          simp [hb]
        have h2 : ¬((!((setFields p r).id == rid)) = true) := by
          simp [setFields, hb]
        have h3 : ¬((!(r.id == rid)) = true) := by simp [hb]
        rw [List.map_cons, h1, List.filter_cons, List.filter_cons,
          if_neg h2, if_neg h3]
        exact filter_not_map_update p rid t
      · have h1 : (if r.id == rid then setFields p r else r) = r := by
          simp [hb]
        have h3 : (!(r.id == rid)) = true := by simp [hb]
        rw [List.map_cons, h1, List.filter_cons, List.filter_cons,
          if_pos h3, if_pos h3, filter_not_map_update p rid t]

/-- Removing the rows matching an id leaves the non-matching rows
unchanged. -/
lemma filter_not_idem (rid : Int) (l : List Row) :
    (l.filter (fun r => !(r.id == rid))).filter (fun r => !(r.id == rid))
      = l.filter (fun r => !(r.id == rid)) := by
  rw [List.filter_filter]
  apply List.filter_congr
  intro a _
  rw [Bool.and_self]

/-- C10 (frame property): List and Get do not change the database; Create
only appends one new row carrying a fresh id; Update and Delete leave every
row whose id differs from the path id unchanged. -/
theorem frame_property (u : String) (db : DB) (raw : RawPayload)
    (p : RecipePayload) (rid : Int) (hWF : WF db)
    (hp : parsePayload raw = some p) :
    (list_recipes (some u) db).2 = db ∧
    (get_recipe (some u) db (some rid)).2 = db ∧
    ((create_recipe (some u) db raw).2.rows
        = db.rows ++ [⟨db.nextId, p.title, p.description, p.ingredients,
            p.instructions⟩] ∧
      db.nextId ∉ db.rows.map Row.id) ∧
    (update_recipe (some u) db (some rid) raw).2.rows.filter
        (fun r => !(r.id == rid))
      = db.rows.filter (fun r => !(r.id == rid)) ∧
    (delete_recipe (some u) db (some rid)).2.rows.filter
        (fun r => !(r.id == rid))
      = db.rows.filter (fun r => !(r.id == rid)) := by
  refine ⟨?_, ?_, ⟨?_, ?_⟩, ?_, ?_⟩
  · simp [list_recipes, fetch_all]
  · cases o : getQuery rid db with
    | none => rw [get_recipe_none u db rid o]
    | some r => rw [get_recipe_ok u db rid r o]
  · simp [create_recipe, hp, execute_returning_one, insertStmt]
  · intro hmem
    obtain ⟨r, hr, hrid⟩ := List.mem_map.mp hmem
    exact absurd hrid (ne_of_lt (hWF.2 r hr))
  · cases hf : db.rows.filter (fun r => r.id == rid) with
    | nil =>
        have hdb : (update_recipe (some u) db (some rid) raw).2 = db := by
          simp [update_recipe, hp, execute_returning_one, updateStmt, hf]
        rw [hdb]
    | cons a rest =>
        have hdb : (update_recipe (some u) db (some rid) raw).2
            = ⟨db.rows.map (fun r => if r.id == rid then setFields p r else r),
                db.nextId⟩ := by
          simp [update_recipe, hp, execute_returning_one, updateStmt, hf]
        rw [hdb]
        exact filter_not_map_update p rid db.rows
  · cases hf : db.rows.filter (fun r => r.id == rid) with
    | nil =>
        have hdb : (delete_recipe (some u) db (some rid)).2 = db := by
          simp [delete_recipe, execute_returning_one, deleteStmt, hf]
        rw [hdb]
    | cons a rest =>
        have hdb : (delete_recipe (some u) db (some rid)).2
            = ⟨db.rows.filter (fun r => !(r.id == rid)), db.nextId⟩ := by
          simp [delete_recipe, execute_returning_one, deleteStmt, hf]
        rw [hdb]
        exact filter_not_idem rid db.rows

theorem frame_property_witness :
    WF sampleDB ∧ parsePayload sampleRaw = some samplePayload ∧
    ((list_recipes (some "dsn") sampleDB).2 = sampleDB ∧
    (get_recipe (some "dsn") sampleDB (some 1)).2 = sampleDB ∧
    ((create_recipe (some "dsn") sampleDB sampleRaw).2.rows
        = sampleDB.rows ++ [⟨sampleDB.nextId, samplePayload.title,
            samplePayload.description, samplePayload.ingredients,
            samplePayload.instructions⟩] ∧
      sampleDB.nextId ∉ sampleDB.rows.map Row.id) ∧
    (update_recipe (some "dsn") sampleDB (some 1) sampleRaw).2.rows.filter
        (fun r => !(r.id == 1))
      = sampleDB.rows.filter (fun r => !(r.id == 1)) ∧
    (delete_recipe (some "dsn") sampleDB (some 1)).2.rows.filter
        (fun r => !(r.id == 1))
      = sampleDB.rows.filter (fun r => !(r.id == 1))) :=
  ⟨by decide, by decide,
    frame_property "dsn" sampleDB sampleRaw samplePayload 1
      (by decide) (by decide)⟩

end RecipeApi
